import Mathlib

/-!
# Digital wallet: balance lookup and atomic withdrawal

A shallow embedding of `models/wallet.go` and `handlers/wallet_handlers.go`.

* The database behind `*sql.DB` is an explicit `Store` value (the rows of the
  `wallets` and `transactions` tables). A unit of work (`*sql.Tx`) carries the
  state it was begun on together with its uncommitted view; `Commit` publishes
  the view, `Rollback` (and a failed `Commit`) keeps the state it was begun on.
* Every storage call can fail: the failures of one call are an input
  (`Faults`), as are the instants returned by `time.Now()` (`Clock`) and the
  identity the store assigns to an inserted record.
* `float64` is embedded bit for bit (`Float64`): a value is its IEEE-754
  binary64 pattern, the comparisons are those of IEEE-754 (false on NaN) and
  the subtraction rounds to nearest, ties to even, as the Go operators do.
* Each function also reports the storage calls it issued, in order.
-/

set_option exponentiation.threshold 4000

/-- A `float64` value, given by its IEEE-754 binary64 bit pattern: bit 63 is
the sign, bits 52 to 62 the biased exponent, bits 0 to 51 the fraction. -/
structure Float64 where
  bits : Fin (2 ^ 64)
deriving DecidableEq

namespace Float64

/-- The value with the given bit pattern (`math.Float64frombits`). -/
def frombits (b : Nat) : Float64 := ⟨⟨b % 2 ^ 64, Nat.mod_lt _ (by decide)⟩⟩

/-- The sign bit. -/
def sign (x : Float64) : Bool := decide (2 ^ 63 ≤ x.bits.val)

/-- The biased exponent field. -/
def expo (x : Float64) : Nat := x.bits.val / 2 ^ 52 % 2048

/-- The fraction field. -/
def frac (x : Float64) : Nat := x.bits.val % 2 ^ 52

/-- Not a number: exponent field all ones, fraction not zero. -/
def isNaN (x : Float64) : Bool := decide (x.expo = 2047) && decide (x.frac ≠ 0)

/-- An infinity: exponent field all ones, fraction zero. -/
def isInf (x : Float64) : Bool := decide (x.expo = 2047) && decide (x.frac = 0)

/-- The value of a finite `x` counted in units of `2 ^ (-1074)`, an integer:
`± frac` for a subnormal, `± (2 ^ 52 + frac) * 2 ^ (expo - 1)` otherwise. The
same formula puts the infinities at `± 2 ^ 2098`, beyond every finite value. -/
def scaled (x : Float64) : Int :=
  let mag : Nat := if x.expo = 0 then x.frac else (2 ^ 52 + x.frac) * 2 ^ (x.expo - 1)
  if x.sign then -(mag : Int) else (mag : Int)

/-- The Go comparison `a < b`: false when an operand is NaN. -/
def blt (a b : Float64) : Bool := !a.isNaN && !b.isNaN && decide (a.scaled < b.scaled)

/-- The Go comparison `a <= b`: false when an operand is NaN. -/
def ble (a b : Float64) : Bool := !a.isNaN && !b.isNaN && decide (a.scaled ≤ b.scaled)

/-- The number of low bits dropped to keep 53 significant bits of `n`: the
greatest `s` with `2 ^ (52 + s) ≤ n`, found by binary search, `0` if none. -/
def dropBits (n : Nat) : Nat :=
  [1024, 512, 256, 128, 64, 32, 16, 8, 4, 2, 1].foldl
    (fun s k => if 2 ^ (52 + s + k) ≤ n then s + k else s) 0

/-- The magnitude bits (exponent and fraction fields) of the float64 nearest
to `n * 2 ^ (-1074)`, ties to even. A carry out of the fraction moves into
the exponent field. -/
def roundMag (n : Nat) : Nat :=
  let shift := dropBits n
  let q := n / 2 ^ shift
  let r := n % 2 ^ shift
  let up : Nat := if 2 ^ shift < 2 * r ∨ (2 * r = 2 ^ shift ∧ q % 2 = 1) then 1 else 0
  shift * 2 ^ 52 + q + up

/-- A quiet NaN (`math.NaN()`). -/
def NaN : Float64 := frombits 0x7FF8000000000001

/-- Positive infinity (`math.Inf(1)`). -/
def Inf : Float64 := frombits 0x7FF0000000000000

/-- The Go operation `a - b`: NaN when an operand is NaN or both are the same
infinity; an infinite operand decides the result; otherwise the exact
difference rounded to nearest, ties to even, overflowing to an infinity. An
exact zero difference is `-0` only for `(-0) - (+0)`. -/
def sub (a b : Float64) : Float64 :=
  if a.isNaN || b.isNaN then NaN
  else if a.isInf then (if b.isInf && (a.sign == b.sign) then NaN else a)
  else if b.isInf then frombits (b.bits.val + 2 ^ 63)
  else
    let d := a.scaled - b.scaled
    if d = 0 then (if a.sign && !b.sign then frombits (2 ^ 63) else frombits 0)
    else frombits ((if d < 0 then 2 ^ 63 else 0) + min (roundMag d.natAbs) (2047 * 2 ^ 52))

/-- The conversion `float64(n)` of a natural number. -/
def ofNat (n : Nat) : Float64 := frombits (min (roundMag (n * 2 ^ 1074)) (2047 * 2 ^ 52))

instance : LT Float64 := ⟨fun a b => blt a b = true⟩

instance : LE Float64 := ⟨fun a b => ble a b = true⟩

instance : Sub Float64 := ⟨sub⟩

instance (n : Nat) : OfNat Float64 n := ⟨ofNat n⟩

instance (a b : Float64) : Decidable (a < b) := inferInstanceAs (Decidable (blt a b = true))

instance (a b : Float64) : Decidable (a ≤ b) := inferInstanceAs (Decidable (ble a b = true))

/-- The difference `a - b` is computed without rounding: the result is not
NaN and its value is the exact difference of the values. -/
def Exact (a b : Float64) : Prop := (a - b).isNaN = false ∧ (a - b).scaled = a.scaled - b.scaled

instance (a b : Float64) : Decidable (Exact a b) := by
  unfold Exact; infer_instance

end Float64

namespace models

/-- Wallet represents a user's digital wallet. -/
structure Wallet where
  ID : Int
  UserID : Int
  Balance : Float64
  CreatedAt : Nat
  UpdatedAt : Nat
deriving DecidableEq

/-- Transaction represents a wallet transaction. -/
structure Transaction where
  ID : Int
  WalletID : Int
  Amount : Float64
  Type_ : String
  BalanceBefore : Float64
  BalanceAfter : Float64
  CreatedAt : Nat
deriving DecidableEq

/-- An error value produced by the storage driver (its message). -/
abbrev DriverError := String

/-- The error values of the package: the four sentinels of the `var` block and
the values built by `fmt.Errorf("<context>: %w", err)` around a driver error. -/
inductive Error where
  | ErrWalletNotFound
  | ErrInsufficientFunds
  | ErrInvalidAmount
  | ErrInvalidUserID
  | wrapped (context : String) (cause : DriverError)
deriving DecidableEq

/-- The persisted state: the rows of `wallets` and of `transactions`, in
table order. -/
structure Store where
  wallets : List Wallet
  transactions : List Transaction
deriving DecidableEq

/-- The storage calls the package issues. -/
inductive StorageOp where
  | query (userID : Int)
  | begin
  | queryForUpdate (userID : Int)
  | execUpdate (walletID : Int)
  | insertTransaction
  | commit
  | rollback
deriving DecidableEq

/-- Storage failures of one call: `none` where the step succeeds. `queryErr`
is a failure of the wallet `SELECT` other than `sql.ErrNoRows`. -/
structure Faults where
  beginErr : Option DriverError
  queryErr : Option DriverError
  execErr : Option DriverError
  insertErr : Option DriverError
  commitErr : Option DriverError
deriving DecidableEq

/-- The instants returned by the three `time.Now()` calls of `Withdraw`, in
source order: the `updated_at` of the `UPDATE`, the record's `CreatedAt`, and
the `UpdatedAt` of the returned wallet. -/
structure Clock where
  updateTime : Nat
  recordTime : Nat
  returnTime : Nat
deriving DecidableEq

/-- No storage call fails. -/
def Faults.none : Faults := ⟨Option.none, Option.none, Option.none, Option.none, Option.none⟩

/-- Row selection of `SELECT ... FROM wallets WHERE user_id = $1` read through
`QueryRow(...).Scan`: the first matching row, `none` for `sql.ErrNoRows`. -/
def selectWallet (rows : List Wallet) (userID : Int) : Option Wallet :=
  rows.find? (fun w => decide (w.UserID = userID))

/-- The statement `UPDATE wallets SET balance = $1, updated_at = $2 WHERE id = $3`. -/
def updateWallet (rows : List Wallet) (balance : Float64) (now : Nat) (id : Int) : List Wallet :=
  rows.map (fun w => if w.ID = id then { w with Balance := balance, UpdatedAt := now } else w)

/-- A unit of work: the persisted state it was begun on and its own view. -/
structure Tx where
  base : Store
  view : Store

/-- The call `db.Begin()` on a live handle. -/
def Begin (db : Store) : Tx := ⟨db, db⟩

/-- What is persisted after `tx.Commit()` returns `err`: the view when it
succeeded, the state the unit of work was begun on when it failed. -/
def Tx.Commit (tx : Tx) (err : Option DriverError) : Store :=
  match err with
  | Option.none => tx.view
  | Option.some _ => tx.base

/-- What is persisted after `tx.Rollback()` on a unit of work that was not
committed. -/
def Tx.Rollback (tx : Tx) : Store := tx.base

/-- A Go call either returns or panics (nil pointer dereference). -/
inductive Outcome (α : Type) where
  | returned (a : α)
  | panicked
deriving DecidableEq

/-- The return values `(*Wallet, error)` of `GetWalletByUserID` and the
storage calls it issued. -/
structure LookupResult where
  wallet : Option Wallet
  err : Option Error
  ops : List StorageOp
deriving DecidableEq

/-- GetWalletByUserID retrieves a wallet by user ID. `db` is `none` for a nil
`*sql.DB`, on which `QueryRow` panics. -/
def GetWalletByUserID (db : Option Store) (queryErr : Option DriverError) (userID : Int) :
    Outcome LookupResult :=
  if userID ≤ 0 then
    .returned ⟨none, some .ErrInvalidUserID, []⟩
  else
    match db with
    | none => .panicked
    | some s =>
      match queryErr with
      | some e => .returned ⟨none, some (.wrapped "error fetching wallet" e), [.query userID]⟩
      | none =>
        match selectWallet s.wallets userID with
        | none => .returned ⟨none, some .ErrWalletNotFound, [.query userID]⟩
        | some wallet => .returned ⟨some wallet, none, [.query userID]⟩

/-- The return values `(*Wallet, *Transaction, error)` of `Withdraw`, the
persisted state after the call and the storage calls it issued. -/
structure WithdrawResult where
  wallet : Option Wallet
  transaction : Option Transaction
  err : Option Error
  db : Store
  ops : List StorageOp
deriving DecidableEq

/-- Withdraw performs a withdrawal from the wallet with transaction support.
`db` is the state behind a live handle, `newID` the `id` returned by the
`INSERT ... RETURNING id`. The deferred `tx.Rollback()` runs on every return
after a successful `Begin`; after a successful `Commit` it changes nothing. -/
def Withdraw (db : Store) (f : Faults) (clock : Clock) (newID : Int) (userID : Int)
    (amount : Float64) : WithdrawResult :=
  if amount ≤ 0 then
    ⟨none, none, some .ErrInvalidAmount, db, []⟩
  else
    match f.beginErr with
    | some e => ⟨none, none, some (.wrapped "error starting transaction" e), db, [.begin]⟩
    | none =>
      let tx := Begin db
      match f.queryErr with
      | some e =>
        ⟨none, none, some (.wrapped "error fetching wallet" e), tx.Rollback,
          [.begin, .queryForUpdate userID, .rollback]⟩
      | none =>
        match selectWallet tx.view.wallets userID with
        | none =>
          ⟨none, none, some .ErrWalletNotFound, tx.Rollback,
            [.begin, .queryForUpdate userID, .rollback]⟩
        | some wallet =>
          if wallet.Balance < amount then
            ⟨none, none, some .ErrInsufficientFunds, tx.Rollback,
              [.begin, .queryForUpdate userID, .rollback]⟩
          else
            let balanceBefore := wallet.Balance
            let balanceAfter := wallet.Balance - amount
            match f.execErr with
            | some e =>
              ⟨none, none, some (.wrapped "error updating wallet" e), tx.Rollback,
                [.begin, .queryForUpdate userID, .execUpdate wallet.ID, .rollback]⟩
            | none =>
              let tx1 : Tx := { tx with view := { tx.view with
                wallets := updateWallet tx.view.wallets balanceAfter clock.updateTime wallet.ID } }
              let transaction : Transaction :=
                { ID := 0, WalletID := wallet.ID, Amount := amount, Type_ := "withdraw",
                  BalanceBefore := balanceBefore, BalanceAfter := balanceAfter,
                  CreatedAt := clock.recordTime }
              match f.insertErr with
              | some e =>
                ⟨none, none, some (.wrapped "error recording transaction" e), tx1.Rollback,
                  [.begin, .queryForUpdate userID, .execUpdate wallet.ID, .insertTransaction,
                    .rollback]⟩
              | none =>
                let transaction := { transaction with ID := newID }
                let tx2 : Tx := { tx1 with view := { tx1.view with
                  transactions := tx1.view.transactions ++ [transaction] } }
                match f.commitErr with
                | some e =>
                  ⟨none, none, some (.wrapped "error committing transaction" e),
                    tx2.Commit (some e),
                    [.begin, .queryForUpdate userID, .execUpdate wallet.ID, .insertTransaction,
                      .commit, .rollback]⟩
                | none =>
                  ⟨some { wallet with Balance := balanceAfter, UpdatedAt := clock.returnTime },
                    some transaction, none, tx2.Commit none,
                    [.begin, .queryForUpdate userID, .execUpdate wallet.ID, .insertTransaction,
                      .commit, .rollback]⟩

end models

namespace handlers

open models

/-- ErrorResponse is the JSON envelope of a failure. -/
structure ErrorResponse where
  Error : String
deriving DecidableEq

/-- BalanceResponse is the JSON envelope of a balance inquiry. -/
structure BalanceResponse where
  UserID : Int
  Balance : Float64
deriving DecidableEq

/-- WithdrawRequest is the decoded request body. -/
structure WithdrawRequest where
  Amount : Float64
deriving DecidableEq

/-- WithdrawResponse is the JSON envelope of a withdrawal. -/
structure WithdrawResponse where
  UserID : Int
  Amount : Float64
  BalanceBefore : Float64
  BalanceAfter : Float64
  TransactionID : Int
deriving DecidableEq

/-- The value handed to `json.NewEncoder(w).Encode`. -/
inductive Body where
  | error (r : ErrorResponse)
  | balance (r : BalanceResponse)
  | withdraw (r : WithdrawResponse)
deriving DecidableEq

/-- What a handler writes: the status passed to `w.WriteHeader` and the
encoded body. -/
structure Response where
  status : Nat
  body : Body
deriving DecidableEq

/-- The test `errors.Is(err, target)` for a sentinel `target` of `models`: a
sentinel matches itself; the chain of a value built by `fmt.Errorf` holds a
driver error only, so it matches no sentinel. -/
def errorsIs (err target : Error) : Bool :=
  match err with
  | .wrapped _ _ => false
  | e => decide (e = target)

/-- GetBalance handles GET /api/balance/{user_id}. `userID` is the result of
`strconv.ParseInt(vars["user_id"], 10, 64)`, `none` when it returns an error. -/
def GetBalance (db : Option Store) (queryErr : Option DriverError) (userID : Option Int) :
    Outcome Response :=
  match userID with
  | none => .returned ⟨400, .error ⟨"Invalid user ID"⟩⟩
  | some userID =>
    match GetWalletByUserID db queryErr userID with
    | .panicked => .panicked
    | .returned r =>
      match r.err with
      | some err =>
        if errorsIs err .ErrWalletNotFound then
          .returned ⟨404, .error ⟨"Wallet not found"⟩⟩
        else
          .returned ⟨500, .error ⟨"Internal server error"⟩⟩
      | none =>
        match r.wallet with
        | none => .panicked
        | some wallet => .returned ⟨200, .balance ⟨wallet.UserID, wallet.Balance⟩⟩

/-- Withdraw handles POST /api/withdraw/{user_id}. `userID` is the result of
`strconv.ParseInt`, `req` the result of decoding the body, each `none` when
the call returns an error. Returns the response and the persisted state. -/
def Withdraw (db : Store) (f : Faults) (clock : Clock) (newID : Int) (userID : Option Int)
    (req : Option WithdrawRequest) : Outcome Response × Store :=
  match userID with
  | none => (.returned ⟨400, .error ⟨"Invalid user ID"⟩⟩, db)
  | some userID =>
    match req with
    | none => (.returned ⟨400, .error ⟨"Invalid request body"⟩⟩, db)
    | some req =>
      let r := models.Withdraw db f clock newID userID req.Amount
      match r.err with
      | some err =>
        if errorsIs err .ErrWalletNotFound then
          (.returned ⟨404, .error ⟨"Wallet not found"⟩⟩, r.db)
        else if errorsIs err .ErrInsufficientFunds then
          (.returned ⟨400, .error ⟨"Insufficient funds"⟩⟩, r.db)
        else if errorsIs err .ErrInvalidAmount then
          (.returned ⟨400, .error ⟨"Amount must be greater than 0"⟩⟩, r.db)
        else
          (.returned ⟨500, .error ⟨"Internal server error"⟩⟩, r.db)
      | none =>
        match r.wallet, r.transaction with
        | some wallet, some transaction =>
          (.returned ⟨200, .withdraw ⟨wallet.UserID, req.Amount, transaction.BalanceBefore,
            wallet.Balance, transaction.ID⟩⟩, r.db)
        | _, _ => (.panicked, r.db)

end handlers

namespace models

/-- Every stored balance is non-negative. -/
def NonNegative (s : Store) : Prop := ∀ w ∈ s.wallets, 0 ≤ w.Balance

instance (s : Store) : Decidable (NonNegative s) := by
  unfold NonNegative; infer_instance

/-- One call of `Withdraw`: its arguments and what the environment does
during it. -/
structure Call where
  faults : Faults
  clock : Clock
  newID : Int
  userID : Int
  amount : Float64

/-- The persisted state after a sequence of `Withdraw` calls, one after the
other. -/
def runWithdraws (db : Store) : List Call → Store
  | [] => db
  | c :: cs => runWithdraws (Withdraw db c.faults c.clock c.newID c.userID c.amount).db cs

/-- The stored balance of the wallet of `userID`, as a lookup reads it. -/
def storedBalance (s : Store) (userID : Int) : Option Float64 :=
  (selectWallet s.wallets userID).map (fun w => w.Balance)

/-- Two withdrawals against the wallet of `userID`, the second run on the
state the first one left, with no storage failure: the results of the first
and of the second. -/
def withdrawTwice (db : Store) (c1 c2 : Clock) (id1 id2 userID : Int) (first second : Float64) :
    WithdrawResult × WithdrawResult :=
  let r1 := Withdraw db Faults.none c1 id1 userID first
  (r1, Withdraw r1.db Faults.none c2 id2 userID second)

end models

namespace models

/-! ## Stores used in the worked instances -/

/-- A store with one wallet: id 1, user 1, balance 100.00. -/
def store100 : Store := ⟨[⟨1, 1, 100, 0, 0⟩], []⟩

/-- A store with two wallets: user 1 holds 50.00, user 2 holds 20.00. -/
def store50 : Store := ⟨[⟨1, 1, 50, 0, 0⟩, ⟨2, 2, 20, 0, 0⟩], []⟩

/-- The instants used in the worked instances. -/
def clock0 : Clock := ⟨10, 11, 12⟩

/-- The float64 written `50.01`. -/
def f50_01 : Float64 := Float64.frombits 0x40490147AE147AE1

/-- The float64 written `0.01`. -/
def f0_01 : Float64 := Float64.frombits 0x3F847AE147AE147B

/-- The float64 written `0.03`. -/
def f0_03 : Float64 := Float64.frombits 0x3F9EB851EB851EB8

/-- The float64 written `0.04`. -/
def f0_04 : Float64 := Float64.frombits 0x3FA47AE147AE147B

/-- The float64 written `0.07`. -/
def f0_07 : Float64 := Float64.frombits 0x3FB1EB851EB851EC

/-- The float64 written `0.08`. -/
def f0_08 : Float64 := Float64.frombits 0x3FB47AE147AE147B

/-- A store with one wallet of user 1 holding `1e17`. -/
def storeBig : Store := ⟨[⟨1, 1, 100000000000000000, 0, 0⟩], []⟩

/-- A store with one wallet of user 1 holding `0.04`. -/
def store0_04 : Store := ⟨[⟨1, 1, f0_04, 0, 0⟩], []⟩

/-- A store with one wallet of user 1 holding `0.08`. -/
def store0_08 : Store := ⟨[⟨1, 1, f0_08, 0, 0⟩], []⟩

/-- A store with one wallet of user 1 holding `+Inf`. -/
def storeInf : Store := ⟨[⟨1, 1, Float64.Inf, 0, 0⟩], []⟩

end models

/-! ## The float64 operations -/

namespace Float64

theorem lt_iff (a b : Float64) :
    a < b ↔ a.isNaN = false ∧ b.isNaN = false ∧ a.scaled < b.scaled := by
  show blt a b = true ↔ _
  simp [blt, and_assoc]

theorem le_iff (a b : Float64) :
    a ≤ b ↔ a.isNaN = false ∧ b.isNaN = false ∧ a.scaled ≤ b.scaled := by
  show ble a b = true ↔ _
  simp [ble, and_assoc]

theorem not_le_of_lt {a b : Float64} (h : a < b) : ¬ b ≤ a := by
  rw [lt_iff] at h
  rw [le_iff]
  omega

theorem not_lt_of_le {a b : Float64} (h : a ≤ b) : ¬ b < a := by
  rw [le_iff] at h
  rw [lt_iff]
  omega

theorem zero_isNaN : (0 : Float64).isNaN = false := by decide

theorem zero_scaled : (0 : Float64).scaled = 0 := by decide

theorem zero_eq : (0 : Float64) = frombits 0 := by decide

theorem frombits_val {n : Nat} (h : n < 2 ^ 64) : (frombits n).bits.val = n := by
  show n % 2 ^ 64 = n
  exact Nat.mod_eq_of_lt h

/-- A pattern with a clear sign bit and magnitude at most that of `+Inf` is
not NaN and its value is not negative. -/
theorem zero_le_frombits {n : Nat} (h : n ≤ 2047 * 2 ^ 52) : (0 : Float64) ≤ frombits n := by
  have hv : (frombits n).bits.val = n := frombits_val (by omega)
  rw [le_iff]
  refine ⟨zero_isNaN, ?_, ?_⟩
  · simp only [isNaN, expo, frac, hv]
    simp only [Bool.and_eq_false_imp, decide_eq_true_eq, decide_eq_false_iff_not, ne_eq, not_not]
    intro h1
    omega
  · rw [zero_scaled]
    simp only [scaled, sign, hv]
    have hs : ¬ (2 ^ 63 ≤ n) := by omega
    simp only [hs, decide_False, Bool.false_eq_true, if_false]
    exact Int.ofNat_nonneg _

theorem sub_self {a : Float64} (hn : a.isNaN = false) (hi : a.isInf = false) :
    a - a = 0 := by
  show sub a a = 0
  rw [zero_eq]
  simp [sub, hn, hi]

theorem eq_Inf_of_isInf {b : Float64} (hi : b.isInf = true) (hs : 0 < b.scaled) : b = Inf := by
  have hsign : b.sign = false := by
    by_contra hc
    have hc2 : b.sign = true := by simpa using hc
    simp only [scaled, hc2, if_true] at hs
    omega
  simp only [isInf, expo, frac, Bool.and_eq_true, decide_eq_true_eq] at hi
  simp only [sign, decide_eq_false_iff_not] at hsign
  have hv : b.bits.val = 2047 * 2 ^ 52 := by omega
  cases b with
  | mk bits =>
    show Float64.mk bits = frombits 0x7FF0000000000000
    simp only [frombits, Float64.mk.injEq]
    apply Fin.ext
    simp only at hv
    rw [hv]
    decide

/-- A difference `a - b` with `0 ≤ a`, `b` positive, not NaN and not `+Inf`,
and not `a < b`, is not NaN and not negative. -/
theorem zero_le_sub {a b : Float64} (ha : 0 ≤ a) (hab : ¬ a < b) (hb0 : ¬ b ≤ 0)
    (hbn : b.isNaN = false) (hbi : b ≠ Inf) : 0 ≤ a - b := by
  obtain ⟨_, han, has⟩ := (le_iff 0 a).1 ha
  rw [zero_scaled] at has
  have hbpos : 0 < b.scaled := by
    by_contra hc
    exact hb0 ((le_iff b 0).2 ⟨hbn, zero_isNaN, by rw [zero_scaled]; omega⟩)
  have hle : b.scaled ≤ a.scaled := by
    by_contra hc
    exact hab ((lt_iff a b).2 ⟨han, hbn, by omega⟩)
  have hbinf : b.isInf = false := by
    by_contra hc
    exact hbi (eq_Inf_of_isInf (by simpa using hc) hbpos)
  show 0 ≤ sub a b
  simp only [sub, han, hbn, hbinf, Bool.or_self, Bool.false_eq_true, if_false, Bool.false_and]
  by_cases hai : a.isInf = true
  · simpa [hai] using ha
  · simp only [hai, Bool.false_eq_true, if_false]
    by_cases hd : a.scaled - b.scaled = 0
    · simp only [hd, if_true]
      split
      · decide
      · decide
    · have hneg : ¬ (a.scaled - b.scaled < 0) := by omega
      simp only [hd, hneg, if_false, Nat.zero_add]
      exact zero_le_frombits (min_le_right _ _)

end Float64

namespace Float64

/-- The model against known float64 results: `float64(100)`, `float64(1)`,
`100 - 0.01 = 99.99`, `0.3 - 0.1 = 0.19999999999999998`, `70 - 30 = 40`,
`1e17 - 1 = 1e17`, the difference of the two smallest subnormals, overflow of
`-max - max` to `-Inf`, `Inf - Inf = NaN`, and the comparisons on NaN. -/
theorem sub_known_values :
    (100 : Float64) = frombits 0x4059000000000000 ∧
    (1 : Float64) = frombits 0x3FF0000000000000 ∧
    (100 : Float64) - frombits 0x3F847AE147AE147B = frombits 0x4058FF5C28F5C28F ∧
    frombits 0x3FD3333333333333 - frombits 0x3FB999999999999A = frombits 0x3FC9999999999999 ∧
    (70 : Float64) - 30 = 40 ∧
    (100000000000000000 : Float64) - 1 = 100000000000000000 ∧
    frombits 1 - frombits 2 = frombits 0x8000000000000001 ∧
    frombits 0xFFEFFFFFFFFFFFFF - frombits 0x7FEFFFFFFFFFFFFF = frombits 0xFFF0000000000000 ∧
    (Inf - Inf).isNaN = true ∧
    ¬ (NaN ≤ (0 : Float64)) ∧ ¬ ((100 : Float64) < NaN) := by
  decide

theorem isNaN_left_of_sub {a b : Float64} (h : (a - b).isNaN = false) : a.isNaN = false := by
  by_contra hc
  have ha : a.isNaN = true := by simpa using hc
  have : a - b = NaN := by
    show sub a b = NaN
    simp [sub, ha]
  rw [this] at h
  exact absurd h (by decide)

end Float64

namespace models

/-! ## Rows after an update -/

theorem selectWallet_updateWallet (rows : List Wallet) (userID : Int) (balance : Float64) (now : Nat)
    (id : Int) :
    selectWallet (updateWallet rows balance now id) userID =
      (selectWallet rows userID).map
        (fun w => if w.ID = id then { w with Balance := balance, UpdatedAt := now } else w) := by
  induction rows with
  | nil => rfl
  | cons r rs ih =>
    simp only [selectWallet, updateWallet, List.map_cons, List.find?_cons] at ih ⊢
    by_cases hu : r.UserID = userID
    · by_cases hid : r.ID = id <;> simp [hu, hid]
    · by_cases hid : r.ID = id <;> simp [hu, hid, ih]

theorem selectWallet_userID {rows : List Wallet} {userID : Int} {w : Wallet}
    (h : selectWallet rows userID = some w) : w.UserID = userID := by
  have := List.find?_some h
  simpa using this

theorem selectWallet_mem {rows : List Wallet} {userID : Int} {w : Wallet}
    (h : selectWallet rows userID = some w) : w ∈ rows :=
  List.mem_of_find?_eq_some h

theorem selectWallet_eq_none {rows : List Wallet} {userID : Int}
    (h : ∀ w ∈ rows, w.UserID ≠ userID) : selectWallet rows userID = none := by
  simp only [selectWallet, List.find?_eq_none]
  intro w hw
  simpa using h w hw

end models

namespace models

/-! ## The paths of `Withdraw` -/

theorem Withdraw_of_nonpos (db : Store) (f : Faults) (clock : Clock) (newID userID : Int)
    (amount : Float64) (ha : amount ≤ 0) :
    Withdraw db f clock newID userID amount = ⟨none, none, some .ErrInvalidAmount, db, []⟩ := by
  simp [Withdraw, ha]

theorem Withdraw_of_begin_error (db : Store) (f : Faults) (clock : Clock) (newID userID : Int)
    (amount : Float64) (e : DriverError) (ha : ¬ amount ≤ 0) (hb : f.beginErr = some e) :
    Withdraw db f clock newID userID amount =
      ⟨none, none, some (.wrapped "error starting transaction" e), db, [.begin]⟩ := by
  simp [Withdraw, ha, hb]

theorem Withdraw_of_query_error (db : Store) (f : Faults) (clock : Clock) (newID userID : Int)
    (amount : Float64) (e : DriverError) (ha : ¬ amount ≤ 0) (hb : f.beginErr = none)
    (hq : f.queryErr = some e) :
    Withdraw db f clock newID userID amount =
      ⟨none, none, some (.wrapped "error fetching wallet" e), db,
        [.begin, .queryForUpdate userID, .rollback]⟩ := by
  simp [Withdraw, ha, hb, hq, Begin, Tx.Rollback]

theorem Withdraw_of_no_rows (db : Store) (f : Faults) (clock : Clock) (newID userID : Int)
    (amount : Float64) (ha : ¬ amount ≤ 0) (hb : f.beginErr = none) (hq : f.queryErr = none)
    (hs : selectWallet db.wallets userID = none) :
    Withdraw db f clock newID userID amount =
      ⟨none, none, some .ErrWalletNotFound, db,
        [.begin, .queryForUpdate userID, .rollback]⟩ := by
  simp [Withdraw, ha, hb, hq, hs, Begin, Tx.Rollback]

theorem Withdraw_of_insufficient (db : Store) (f : Faults) (clock : Clock) (newID userID : Int)
    (amount : Float64) (w : Wallet) (ha : ¬ amount ≤ 0) (hb : f.beginErr = none)
    (hq : f.queryErr = none) (hs : selectWallet db.wallets userID = some w)
    (hlt : w.Balance < amount) :
    Withdraw db f clock newID userID amount =
      ⟨none, none, some .ErrInsufficientFunds, db,
        [.begin, .queryForUpdate userID, .rollback]⟩ := by
  simp [Withdraw, ha, hb, hq, hs, hlt, Begin, Tx.Rollback]

theorem Withdraw_of_exec_error (db : Store) (f : Faults) (clock : Clock) (newID userID : Int)
    (amount : Float64) (w : Wallet) (e : DriverError) (ha : ¬ amount ≤ 0) (hb : f.beginErr = none)
    (hq : f.queryErr = none) (hs : selectWallet db.wallets userID = some w)
    (hlt : ¬ w.Balance < amount) (hx : f.execErr = some e) :
    Withdraw db f clock newID userID amount =
      ⟨none, none, some (.wrapped "error updating wallet" e), db,
        [.begin, .queryForUpdate userID, .execUpdate w.ID, .rollback]⟩ := by
  simp [Withdraw, ha, hb, hq, hs, hlt, hx, Begin, Tx.Rollback]

theorem Withdraw_of_insert_error (db : Store) (f : Faults) (clock : Clock) (newID userID : Int)
    (amount : Float64) (w : Wallet) (e : DriverError) (ha : ¬ amount ≤ 0) (hb : f.beginErr = none)
    (hq : f.queryErr = none) (hs : selectWallet db.wallets userID = some w)
    (hlt : ¬ w.Balance < amount) (hx : f.execErr = none) (hi : f.insertErr = some e) :
    Withdraw db f clock newID userID amount =
      ⟨none, none, some (.wrapped "error recording transaction" e), db,
        [.begin, .queryForUpdate userID, .execUpdate w.ID, .insertTransaction, .rollback]⟩ := by
  simp [Withdraw, ha, hb, hq, hs, hlt, hx, hi, Begin, Tx.Rollback]

theorem Withdraw_of_commit_error (db : Store) (f : Faults) (clock : Clock) (newID userID : Int)
    (amount : Float64) (w : Wallet) (e : DriverError) (ha : ¬ amount ≤ 0) (hb : f.beginErr = none)
    (hq : f.queryErr = none) (hs : selectWallet db.wallets userID = some w)
    (hlt : ¬ w.Balance < amount) (hx : f.execErr = none) (hi : f.insertErr = none)
    (hc : f.commitErr = some e) :
    Withdraw db f clock newID userID amount =
      ⟨none, none, some (.wrapped "error committing transaction" e), db,
        [.begin, .queryForUpdate userID, .execUpdate w.ID, .insertTransaction, .commit,
          .rollback]⟩ := by
  simp [Withdraw, ha, hb, hq, hs, hlt, hx, hi, hc, Begin, Tx.Commit]

theorem Withdraw_of_commit (db : Store) (f : Faults) (clock : Clock) (newID userID : Int)
    (amount : Float64) (w : Wallet) (ha : ¬ amount ≤ 0) (hb : f.beginErr = none)
    (hq : f.queryErr = none) (hs : selectWallet db.wallets userID = some w)
    (hlt : ¬ w.Balance < amount) (hx : f.execErr = none) (hi : f.insertErr = none)
    (hc : f.commitErr = none) :
    Withdraw db f clock newID userID amount =
      ⟨some { w with Balance := w.Balance - amount, UpdatedAt := clock.returnTime },
        some ⟨newID, w.ID, amount, "withdraw", w.Balance, w.Balance - amount, clock.recordTime⟩,
        none,
        ⟨updateWallet db.wallets (w.Balance - amount) clock.updateTime w.ID,
          db.transactions ++
            [⟨newID, w.ID, amount, "withdraw", w.Balance, w.Balance - amount,
              clock.recordTime⟩]⟩,
        [.begin, .queryForUpdate userID, .execUpdate w.ID, .insertTransaction, .commit,
          .rollback]⟩ := by
  simp [Withdraw, ha, hb, hq, hs, hlt, hx, hi, hc, Begin, Tx.Commit]

/-- Every call of `Withdraw` either returns an error and leaves the store as
it was, or takes the committing path on the wallet it read. -/
theorem Withdraw_cases (db : Store) (f : Faults) (clock : Clock) (newID userID : Int)
    (amount : Float64) :
    ((Withdraw db f clock newID userID amount).err ≠ none ∧
      (Withdraw db f clock newID userID amount).db = db ∧
      (Withdraw db f clock newID userID amount).wallet = none ∧
      (Withdraw db f clock newID userID amount).transaction = none) ∨
    (∃ w, selectWallet db.wallets userID = some w ∧ ¬ amount ≤ 0 ∧ ¬ w.Balance < amount ∧
      Withdraw db f clock newID userID amount =
        ⟨some { w with Balance := w.Balance - amount, UpdatedAt := clock.returnTime },
          some ⟨newID, w.ID, amount, "withdraw", w.Balance, w.Balance - amount,
            clock.recordTime⟩,
          none,
          ⟨updateWallet db.wallets (w.Balance - amount) clock.updateTime w.ID,
            db.transactions ++
              [⟨newID, w.ID, amount, "withdraw", w.Balance, w.Balance - amount,
                clock.recordTime⟩]⟩,
          [.begin, .queryForUpdate userID, .execUpdate w.ID, .insertTransaction, .commit,
            .rollback]⟩) := by
  by_cases ha : amount ≤ 0
  · left; rw [Withdraw_of_nonpos db f clock newID userID amount ha]; simp
  cases hb : f.beginErr with
  | some e => left; rw [Withdraw_of_begin_error db f clock newID userID amount e ha hb]; simp
  | none =>
    cases hq : f.queryErr with
    | some e => left; rw [Withdraw_of_query_error db f clock newID userID amount e ha hb hq]; simp
    | none =>
      cases hs : selectWallet db.wallets userID with
      | none => left; rw [Withdraw_of_no_rows db f clock newID userID amount ha hb hq hs]; simp
      | some w =>
        by_cases hlt : w.Balance < amount
        · left; rw [Withdraw_of_insufficient db f clock newID userID amount w ha hb hq hs hlt]; simp
        cases hx : f.execErr with
        | some e =>
          left
          rw [Withdraw_of_exec_error db f clock newID userID amount w e ha hb hq hs hlt hx]; simp
        | none =>
          cases hi : f.insertErr with
          | some e =>
            left
            rw [Withdraw_of_insert_error db f clock newID userID amount w e ha hb hq hs hlt hx hi]
            simp
          | none =>
            cases hc : f.commitErr with
            | some e =>
              left
              rw [Withdraw_of_commit_error db f clock newID userID amount w e ha hb hq hs hlt hx
                hi hc]
              simp
            | none =>
              right
              exact ⟨w, rfl, ha, hlt,
                Withdraw_of_commit db f clock newID userID amount w ha hb hq hs hlt hx hi hc⟩

/-! ## Validation before storage -/

/-- C5: for every `userID ≤ 0`, `GetWalletByUserID` returns a nil wallet and
exactly `ErrInvalidUserID`, and issues no storage call; the result is the same
for every store state, for a nil handle and whatever the storage would do. -/
theorem GetWalletByUserID_invalid_userID (db : Option Store) (queryErr : Option DriverError)
    (userID : Int) (h : userID ≤ 0) :
    GetWalletByUserID db queryErr userID =
      .returned ⟨none, some .ErrInvalidUserID, []⟩ := by
  simp [GetWalletByUserID, h]

theorem GetWalletByUserID_invalid_userID_witness :
    (-1 : Int) ≤ 0 ∧
    GetWalletByUserID none none (-1) = .returned ⟨none, some .ErrInvalidUserID, []⟩ ∧
    GetWalletByUserID (some store100) (some "connection refused") (-1) =
      .returned ⟨none, some .ErrInvalidUserID, []⟩ :=
  ⟨by decide, GetWalletByUserID_invalid_userID none none (-1) (by decide),
    GetWalletByUserID_invalid_userID (some store100) (some "connection refused") (-1)
      (by decide)⟩

/-- C6: for every `amount ≤ 0` and every `userID`, `Withdraw` fails with
`ErrInvalidAmount`, returns neither a wallet nor a transaction, issues no
storage call (no unit of work is begun, no row is locked) and leaves the
store as it was, for every store state and whatever the storage would do. -/
theorem Withdraw_invalid_amount (db : Store) (f : Faults) (clock : Clock) (newID userID : Int)
    (amount : Float64) (h : amount ≤ 0) :
    Withdraw db f clock newID userID amount =
      ⟨none, none, some .ErrInvalidAmount, db, []⟩ := by
  simp [Withdraw, h]

theorem Withdraw_invalid_amount_witness :
    (0 : Float64) ≤ 0 ∧
    Withdraw store100 Faults.none clock0 7 9999 0 =
      ⟨none, none, some .ErrInvalidAmount, store100, []⟩ :=
  ⟨by decide, Withdraw_invalid_amount store100 Faults.none clock0 7 9999 0 (by decide)⟩

/-! ## Failure leaves no trace -/

/-- C2: whenever `Withdraw` returns an error (invalid amount, wallet not
found, insufficient funds, or a storage failure at begin, at the locking read,
at the balance update, at the record insert or at commit), the persisted
wallets and transaction records after the call are those before it, and
neither a wallet nor a transaction is returned. -/
theorem Withdraw_error_store_unchanged (db : Store) (f : Faults) (clock : Clock)
    (newID userID : Int) (amount : Float64)
    (h : (Withdraw db f clock newID userID amount).err ≠ none) :
    (Withdraw db f clock newID userID amount).db = db ∧
    (Withdraw db f clock newID userID amount).wallet = none ∧
    (Withdraw db f clock newID userID amount).transaction = none := by
  rcases Withdraw_cases db f clock newID userID amount with h1 | ⟨w, _, _, _, h2⟩
  · exact h1.2
  · rw [h2] at h; simp at h

theorem Withdraw_error_store_unchanged_witness :
    (Withdraw store100 ⟨none, none, none, none, some "commit failed"⟩ clock0 7 1 30).err ≠ none ∧
    (Withdraw store100 ⟨none, none, none, none, some "commit failed"⟩ clock0 7 1 30).db
      = store100 ∧
    (Withdraw store100 ⟨none, none, none, none, some "commit failed"⟩ clock0 7 1 30).wallet
      = none ∧
    (Withdraw store100 ⟨none, none, none, none, some "commit failed"⟩ clock0 7 1 30).transaction
      = none :=
  ⟨by decide, Withdraw_error_store_unchanged store100
    ⟨none, none, none, none, some "commit failed"⟩ clock0 7 1 30 (by decide)⟩

end models


namespace models

/-! ## Successful withdrawal -/

/-- C1 as stated fails: `B - amount` in the code is the float64 difference.
The wallet holds `1e17` and `1` is withdrawn: the call succeeds, the returned
and stored balance is still `1e17`, and the record has `balance_after` equal
to `balance_before`, although the exact difference is `1e17 - 1`. -/
theorem Withdraw_success_not_exact :
    selectWallet storeBig.wallets 1 = some ⟨1, 1, 100000000000000000, 0, 0⟩ ∧
    (0 : Float64) < 1 ∧ (1 : Float64) ≤ 100000000000000000 ∧
    (Withdraw storeBig Faults.none clock0 7 1 1).err = none ∧
    (Withdraw storeBig Faults.none clock0 7 1 1).wallet =
      some ⟨1, 1, 100000000000000000, 0, 12⟩ ∧
    (Withdraw storeBig Faults.none clock0 7 1 1).transaction =
      some ⟨7, 1, 1, "withdraw", 100000000000000000, 100000000000000000, 11⟩ ∧
    storedBalance (Withdraw storeBig Faults.none clock0 7 1 1).db 1 =
      some 100000000000000000 ∧
    (100000000000000000 : Float64).scaled - (1 : Float64).scaled ≠
      (100000000000000000 : Float64).scaled := by
  decide

/-- C1 as amended: when the user has a wallet with balance `B`,
`0 < amount ≤ B` and no storage call fails, `Withdraw` succeeds: the returned
wallet has balance `B - amount`, the float64 difference the code computes;
exactly one record is appended, the one returned, with that wallet's id,
`amount`, type "withdraw", `balance_before = B` and `balance_after` that
difference; the stored balance of the wallet becomes that difference; the
rows of every other wallet id are unchanged. With `amount = B` and `B`
finite the resulting balance is `0`. -/
theorem Withdraw_success (db : Store) (clock : Clock) (newID userID : Int) (amount B : Float64)
    (w : Wallet) (hw : selectWallet db.wallets userID = some w) (hB : w.Balance = B)
    (hpos : 0 < amount) (hle : amount ≤ B) :
    (Withdraw db Faults.none clock newID userID amount).err = none ∧
    (Withdraw db Faults.none clock newID userID amount).wallet =
      some { w with Balance := B - amount, UpdatedAt := clock.returnTime } ∧
    (Withdraw db Faults.none clock newID userID amount).transaction =
      some ⟨newID, w.ID, amount, "withdraw", B, B - amount, clock.recordTime⟩ ∧
    (Withdraw db Faults.none clock newID userID amount).db.transactions =
      db.transactions ++
        [⟨newID, w.ID, amount, "withdraw", B, B - amount, clock.recordTime⟩] ∧
    storedBalance (Withdraw db Faults.none clock newID userID amount).db userID = some (B - amount) ∧
    (Withdraw db Faults.none clock newID userID amount).db.wallets.length = db.wallets.length ∧
    (∀ (i : Nat) (r : Wallet), db.wallets[i]? = some r →
      (Withdraw db Faults.none clock newID userID amount).db.wallets[i]? =
        some (if r.ID = w.ID then
          { r with Balance := B - amount, UpdatedAt := clock.updateTime } else r)) ∧
    (amount = B → B.isInf = false →
      storedBalance (Withdraw db Faults.none clock newID userID amount).db userID = some 0) := by
  have ha : ¬ amount ≤ 0 := Float64.not_le_of_lt hpos
  have hlt : ¬ w.Balance < amount := by rw [hB]; exact Float64.not_lt_of_le hle
  have hsb : storedBalance (Withdraw db Faults.none clock newID userID amount).db userID =
      some (B - amount) := by
    rw [Withdraw_of_commit db Faults.none clock newID userID amount w ha rfl rfl hw hlt rfl rfl
      rfl, hB]
    simp [storedBalance, selectWallet_updateWallet, hw]
  refine ⟨?_, ?_, ?_, ?_, hsb, ?_, ?_, ?_⟩
  · rw [Withdraw_of_commit db Faults.none clock newID userID amount w ha rfl rfl hw hlt rfl rfl
      rfl]
  · rw [Withdraw_of_commit db Faults.none clock newID userID amount w ha rfl rfl hw hlt rfl rfl
      rfl, hB]
  · rw [Withdraw_of_commit db Faults.none clock newID userID amount w ha rfl rfl hw hlt rfl rfl
      rfl, hB]
  · rw [Withdraw_of_commit db Faults.none clock newID userID amount w ha rfl rfl hw hlt rfl rfl
      rfl, hB]
  · rw [Withdraw_of_commit db Faults.none clock newID userID amount w ha rfl rfl hw hlt rfl rfl
      rfl]
    simp [updateWallet]
  · intro i r hr
    rw [Withdraw_of_commit db Faults.none clock newID userID amount w ha rfl rfl hw hlt rfl rfl
      rfl, hB]
    simp [updateWallet, List.getElem?_map, hr]
  · intro heq hfin
    rw [hsb, heq, Float64.sub_self ((Float64.le_iff amount B).1 hle).2.1 hfin]

theorem Withdraw_success_witness :
    selectWallet store50.wallets 1 = some ⟨1, 1, 50, 0, 0⟩ ∧
    (⟨1, 1, 50, 0, 0⟩ : Wallet).Balance = 50 ∧ (0 : Float64) < 50 ∧ (50 : Float64) ≤ 50 ∧
    (Withdraw store50 Faults.none clock0 7 1 50).err = none ∧
    (Withdraw store50 Faults.none clock0 7 1 50).wallet =
      some { (⟨1, 1, 50, 0, 0⟩ : Wallet) with Balance := (50 : Float64) - (50 : Float64), UpdatedAt := clock0.returnTime } ∧
    (Withdraw store50 Faults.none clock0 7 1 50).transaction =
      some ⟨7, (⟨1, 1, 50, 0, 0⟩ : Wallet).ID, (50 : Float64), "withdraw", (50 : Float64), (50 : Float64) - (50 : Float64), clock0.recordTime⟩ ∧
    (Withdraw store50 Faults.none clock0 7 1 50).db.transactions =
      store50.transactions ++
        [⟨7, (⟨1, 1, 50, 0, 0⟩ : Wallet).ID, (50 : Float64), "withdraw", (50 : Float64), (50 : Float64) - (50 : Float64), clock0.recordTime⟩] ∧
    storedBalance (Withdraw store50 Faults.none clock0 7 1 50).db 1 = some ((50 : Float64) - (50 : Float64)) ∧
    (Withdraw store50 Faults.none clock0 7 1 50).db.wallets.length = store50.wallets.length ∧
    (∀ (i : Nat) (r : Wallet), store50.wallets[i]? = some r →
      (Withdraw store50 Faults.none clock0 7 1 50).db.wallets[i]? =
        some (if r.ID = (⟨1, 1, 50, 0, 0⟩ : Wallet).ID then
          { r with Balance := (50 : Float64) - (50 : Float64), UpdatedAt := clock0.updateTime } else r)) ∧
    ((50 : Float64) = (50 : Float64) → (50 : Float64).isInf = false →
      storedBalance (Withdraw store50 Faults.none clock0 7 1 50).db 1 = some 0) :=
  ⟨by decide, rfl, by decide, by decide,
    Withdraw_success store50 clock0 7 1 50 50 ⟨1, 1, 50, 0, 0⟩ (by decide) rfl (by decide)
      (by decide)⟩

/-! ## Rejected withdrawals -/

/-- C3: when the user has a wallet with balance `B` and `amount > 0`,
`amount > B`, `Withdraw` returns neither a wallet nor a transaction, returns
an error, and the store (so the stored balance `B`) is as before; the error is
`ErrInsufficientFunds` whenever the storage begins the unit of work and
answers the locking read. -/
theorem Withdraw_insufficient_funds (db : Store) (f : Faults) (clock : Clock)
    (newID userID : Int) (amount B : Float64) (w : Wallet)
    (hw : selectWallet db.wallets userID = some w) (hB : w.Balance = B)
    (hpos : 0 < amount) (hgt : B < amount) :
    (Withdraw db f clock newID userID amount).wallet = none ∧
    (Withdraw db f clock newID userID amount).transaction = none ∧
    (Withdraw db f clock newID userID amount).err ≠ none ∧
    (Withdraw db f clock newID userID amount).db = db ∧
    storedBalance (Withdraw db f clock newID userID amount).db userID = some B ∧
    (f.beginErr = none → f.queryErr = none →
      (Withdraw db f clock newID userID amount).err = some .ErrInsufficientFunds) := by
  have ha : ¬ amount ≤ 0 := Float64.not_le_of_lt hpos
  have hlt : w.Balance < amount := by rw [hB]; exact hgt
  have hsb : storedBalance db userID = some B := by simp [storedBalance, hw, hB]
  cases hb : f.beginErr with
  | some e =>
    rw [Withdraw_of_begin_error db f clock newID userID amount e ha hb]
    simp [hsb]
  | none =>
    cases hq : f.queryErr with
    | some e =>
      rw [Withdraw_of_query_error db f clock newID userID amount e ha hb hq]
      simp [hsb]
    | none =>
      rw [Withdraw_of_insufficient db f clock newID userID amount w ha hb hq hw hlt]
      simp [hsb]

theorem Withdraw_insufficient_funds_witness :
    selectWallet store50.wallets 1 = some ⟨1, 1, 50, 0, 0⟩ ∧
    (⟨1, 1, 50, 0, 0⟩ : Wallet).Balance = 50 ∧ (0 : Float64) < f50_01 ∧
    (50 : Float64) < f50_01 ∧
    (Withdraw store50 Faults.none clock0 7 1 f50_01).wallet = none ∧
    (Withdraw store50 Faults.none clock0 7 1 f50_01).transaction = none ∧
    (Withdraw store50 Faults.none clock0 7 1 f50_01).err ≠ none ∧
    (Withdraw store50 Faults.none clock0 7 1 f50_01).db = store50 ∧
    storedBalance (Withdraw store50 Faults.none clock0 7 1 f50_01).db 1 = some 50 ∧
    (Faults.none.beginErr = none → Faults.none.queryErr = none →
      (Withdraw store50 Faults.none clock0 7 1 f50_01).err =
        some .ErrInsufficientFunds) :=
  ⟨by decide, rfl, by decide, by decide,
    Withdraw_insufficient_funds store50 Faults.none clock0 7 1 f50_01 50 ⟨1, 1, 50, 0, 0⟩
      (by decide) rfl (by decide) (by decide)⟩

/-- C8: when the store holds no wallet of `userID` and `userID > 0`, a lookup
the storage answers fails with `ErrWalletNotFound`; `Withdraw` with
`amount > 0` returns neither a wallet nor a transaction and leaves the store
as it was, and fails with `ErrWalletNotFound` whenever the storage begins the
unit of work and answers the locking read. -/
theorem unknown_user_not_found (s : Store) (userID : Int) (hpos : 0 < userID)
    (hno : ∀ w ∈ s.wallets, w.UserID ≠ userID) :
    GetWalletByUserID (some s) none userID =
      .returned ⟨none, some .ErrWalletNotFound, [.query userID]⟩ ∧
    (∀ (f : Faults) (clock : Clock) (newID : Int) (amount : Float64), 0 < amount →
      (Withdraw s f clock newID userID amount).wallet = none ∧
      (Withdraw s f clock newID userID amount).transaction = none ∧
      (Withdraw s f clock newID userID amount).err ≠ none ∧
      (Withdraw s f clock newID userID amount).db = s ∧
      (f.beginErr = none → f.queryErr = none →
        (Withdraw s f clock newID userID amount).err = some .ErrWalletNotFound)) := by
  have hs : selectWallet s.wallets userID = none := selectWallet_eq_none hno
  constructor
  · simp [GetWalletByUserID, not_le.mpr hpos, hs]
  · intro f clock newID amount hamt
    have ha : ¬ amount ≤ 0 := Float64.not_le_of_lt hamt
    cases hb : f.beginErr with
    | some e =>
      rw [Withdraw_of_begin_error s f clock newID userID amount e ha hb]
      simp
    | none =>
      cases hq : f.queryErr with
      | some e =>
        rw [Withdraw_of_query_error s f clock newID userID amount e ha hb hq]
        simp
      | none =>
        rw [Withdraw_of_no_rows s f clock newID userID amount ha hb hq hs]
        simp

theorem unknown_user_not_found_witness :
    (0 : Int) < 9999 ∧ (∀ w ∈ store50.wallets, w.UserID ≠ 9999) ∧
    GetWalletByUserID (some store50) none 9999 =
      .returned ⟨none, some .ErrWalletNotFound, [.query 9999]⟩ ∧
    (∀ (f : Faults) (clock : Clock) (newID : Int) (amount : Float64), 0 < amount →
      (Withdraw store50 f clock newID 9999 amount).wallet = none ∧
      (Withdraw store50 f clock newID 9999 amount).transaction = none ∧
      (Withdraw store50 f clock newID 9999 amount).err ≠ none ∧
      (Withdraw store50 f clock newID 9999 amount).db = store50 ∧
      (f.beginErr = none → f.queryErr = none →
        (Withdraw store50 f clock newID 9999 amount).err = some .ErrWalletNotFound)) :=
  ⟨by decide, by decide, unknown_user_not_found store50 9999 (by decide) (by decide)⟩

end models

namespace models

/-! ## Non-negative balances -/

theorem updateWallet_nonneg (rows : List Wallet) (balance : Float64) (now : Nat) (id : Int)
    (hrows : ∀ w ∈ rows, 0 ≤ w.Balance) (hb : 0 ≤ balance) :
    ∀ w ∈ updateWallet rows balance now id, 0 ≤ w.Balance := by
  intro w hw
  simp only [updateWallet, List.mem_map] at hw
  obtain ⟨r, hr, rfl⟩ := hw
  by_cases hid : r.ID = id
  · simpa [hid] using hb
  · simpa [hid] using hrows r hr

theorem Withdraw_nonneg_step (db : Store) (f : Faults) (clock : Clock) (newID userID : Int)
    (amount : Float64) (h : NonNegative db) (hn : amount.isNaN = false)
    (hi : amount ≠ Float64.Inf) :
    NonNegative (Withdraw db f clock newID userID amount).db := by
  rcases Withdraw_cases db f clock newID userID amount with h1 | ⟨w, hw, ha, hlt, h2⟩
  · rw [h1.2.1]; exact h
  · rw [h2]
    exact updateWallet_nonneg db.wallets _ _ _ h
      (Float64.zero_le_sub (h w (selectWallet_mem hw)) hlt ha hn hi)

/-- C9 as stated fails: with balance `100` (non-negative) and the amount NaN
both guards of `Withdraw` are false, the withdrawal commits and the stored
balance is NaN, which is not `≥ 0`; with balance `+Inf` and amount `+Inf` the
stored balance becomes NaN as well. -/
theorem Withdraw_nan_breaks_nonneg :
    NonNegative store100 ∧
    (Withdraw store100 Faults.none clock0 7 1 Float64.NaN).err = none ∧
    ¬ NonNegative (Withdraw store100 Faults.none clock0 7 1 Float64.NaN).db ∧
    NonNegative storeInf ∧
    (Withdraw storeInf Faults.none clock0 7 1 Float64.Inf).err = none ∧
    ¬ NonNegative (Withdraw storeInf Faults.none clock0 7 1 Float64.Inf).db := by
  decide

/-- C9 as amended: if every wallet balance in the store is `≥ 0`, then after
`Withdraw` returns, with success or with any error, for an amount that is
neither NaN nor `+Inf`, every wallet balance is still `≥ 0`; hence the same
holds after any sequence of `Withdraw` calls with such amounts. -/
theorem Withdraw_preserves_nonneg (db : Store) (h : NonNegative db) :
    (∀ (f : Faults) (clock : Clock) (newID userID : Int) (amount : Float64),
      amount.isNaN = false → amount ≠ Float64.Inf →
      NonNegative (Withdraw db f clock newID userID amount).db) ∧
    (∀ calls : List Call, (∀ c ∈ calls, c.amount.isNaN = false ∧ c.amount ≠ Float64.Inf) →
      NonNegative (runWithdraws db calls)) := by
  refine ⟨fun f clock newID userID amount hn hi =>
    Withdraw_nonneg_step db f clock newID userID amount h hn hi, ?_⟩
  intro calls
  induction calls generalizing db with
  | nil => intro _; exact h
  | cons c cs ih =>
    intro hc
    have hc0 := hc c (List.mem_cons_self c cs)
    exact ih _
      (Withdraw_nonneg_step db c.faults c.clock c.newID c.userID c.amount h hc0.1 hc0.2)
      (fun d hd => hc d (List.mem_cons_of_mem c hd))

theorem Withdraw_preserves_nonneg_witness :
    NonNegative store50 ∧
    (∀ (f : Faults) (clock : Clock) (newID userID : Int) (amount : Float64),
      amount.isNaN = false → amount ≠ Float64.Inf →
      NonNegative (Withdraw store50 f clock newID userID amount).db) ∧
    (∀ calls : List Call, (∀ c ∈ calls, c.amount.isNaN = false ∧ c.amount ≠ Float64.Inf) →
      NonNegative (runWithdraws store50 calls)) :=
  ⟨by decide, Withdraw_preserves_nonneg store50 (by decide)⟩

end models

namespace models

/-! ## Serialized withdrawals -/

theorem withdrawTwice_fst (db : Store) (c1 c2 : Clock) (id1 id2 userID : Int) (a b B : Float64)
    (w : Wallet) (hw : selectWallet db.wallets userID = some w) (hB : w.Balance = B)
    (ha : 0 < a) (hle : a ≤ B) :
    (withdrawTwice db c1 c2 id1 id2 userID a b).1.err = none ∧
    (withdrawTwice db c1 c2 id1 id2 userID a b).1.transaction =
      some ⟨id1, w.ID, a, "withdraw", B, B - a, c1.recordTime⟩ ∧
    selectWallet (withdrawTwice db c1 c2 id1 id2 userID a b).1.db.wallets userID =
      some { w with Balance := B - a, UpdatedAt := c1.updateTime } := by
  have ha0 : ¬ a ≤ 0 := Float64.not_le_of_lt ha
  have hlt : ¬ w.Balance < a := by rw [hB]; exact Float64.not_lt_of_le hle
  have h1 := Withdraw_of_commit db Faults.none c1 id1 userID a w ha0 rfl rfl hw hlt rfl rfl rfl
  simp only [withdrawTwice]
  rw [h1, hB]
  refine ⟨rfl, rfl, ?_⟩
  simp [selectWallet_updateWallet, hw]

theorem withdrawTwice_snd_ok (db : Store) (c1 c2 : Clock) (id1 id2 userID : Int)
    (a b B : Float64) (w : Wallet) (hw : selectWallet db.wallets userID = some w)
    (hB : w.Balance = B) (ha : 0 < a) (hb : 0 < b) (hle : a ≤ B) (hok : ¬ (B - a < b)) :
    (withdrawTwice db c1 c2 id1 id2 userID a b).2.err = none ∧
    (withdrawTwice db c1 c2 id1 id2 userID a b).2.transaction =
      some ⟨id2, w.ID, b, "withdraw", B - a, B - a - b, c2.recordTime⟩ ∧
    storedBalance (withdrawTwice db c1 c2 id1 id2 userID a b).2.db userID =
      some (B - a - b) := by
  have hs2 := (withdrawTwice_fst db c1 c2 id1 id2 userID a b B w hw hB ha hle).2.2
  have hb0 : ¬ b ≤ 0 := Float64.not_le_of_lt hb
  have h2 := Withdraw_of_commit (withdrawTwice db c1 c2 id1 id2 userID a b).1.db Faults.none c2
    id2 userID b _ hb0 rfl rfl hs2 hok rfl rfl rfl
  have he : (withdrawTwice db c1 c2 id1 id2 userID a b).2 =
      Withdraw (withdrawTwice db c1 c2 id1 id2 userID a b).1.db Faults.none c2 id2 userID b :=
    rfl
  rw [he, h2]
  refine ⟨rfl, rfl, ?_⟩
  simp [storedBalance, selectWallet_updateWallet, hs2]

theorem withdrawTwice_snd_rejected (db : Store) (c1 c2 : Clock) (id1 id2 userID : Int)
    (a b B : Float64) (w : Wallet) (hw : selectWallet db.wallets userID = some w)
    (hB : w.Balance = B) (ha : 0 < a) (hb : 0 < b) (hle : a ≤ B) (hlt : B - a < b) :
    (withdrawTwice db c1 c2 id1 id2 userID a b).2.err = some .ErrInsufficientFunds ∧
    storedBalance (withdrawTwice db c1 c2 id1 id2 userID a b).2.db userID = some (B - a) := by
  have hs2 := (withdrawTwice_fst db c1 c2 id1 id2 userID a b B w hw hB ha hle).2.2
  have hb0 : ¬ b ≤ 0 := Float64.not_le_of_lt hb
  have h2 := Withdraw_of_insufficient (withdrawTwice db c1 c2 id1 id2 userID a b).1.db
    Faults.none c2 id2 userID b _ hb0 rfl rfl hs2 hlt
  have he : (withdrawTwice db c1 c2 id1 id2 userID a b).2 =
      Withdraw (withdrawTwice db c1 c2 id1 id2 userID a b).1.db Faults.none c2 id2 userID b :=
    rfl
  rw [he, h2]
  refine ⟨rfl, ?_⟩
  simp [storedBalance, hs2]

/-- With exact differences and `a + b ≤ B` in exact arithmetic, the second
withdrawal is not rejected. -/
theorem exact_second_ok {a b B : Float64} (hsum : a.scaled + b.scaled ≤ B.scaled)
    (hex : Float64.Exact B a) : ¬ (B - a < b) := by
  intro hlt
  obtain ⟨_, _, h3⟩ := (Float64.lt_iff (B - a) b).1 hlt
  rw [hex.2] at h3
  omega

/-- With an exact difference and `a + b > B` in exact arithmetic, the second
withdrawal is rejected. -/
theorem exact_second_rejected {a b B : Float64} (hb : 0 < b)
    (hsum : B.scaled < a.scaled + b.scaled) (hex : Float64.Exact B a) : B - a < b := by
  rw [Float64.lt_iff]
  refine ⟨hex.1, ((Float64.lt_iff 0 b).1 hb).2.1, ?_⟩
  rw [hex.2]
  omega

theorem le_of_exact_sum {a b B : Float64} (ha : 0 < a) (hb : 0 < b)
    (hsum : a.scaled + b.scaled ≤ B.scaled) (hex : Float64.Exact B a) : a ≤ B := by
  rw [Float64.le_iff]
  obtain ⟨_, han, _⟩ := (Float64.lt_iff 0 a).1 ha
  obtain ⟨_, _, hbs⟩ := (Float64.lt_iff 0 b).1 hb
  rw [Float64.zero_scaled] at hbs
  exact ⟨han, Float64.isNaN_left_of_sub hex.1, by omega⟩

/-- C10 as stated fails in both of its cases. Balance `0.04`, withdrawals
`0.01` and `0.03`: the exact sum is at most the balance and both succeed in
either order, but the final balance is `0` in one order and `2 ^ (-59)` in the
other. Balance `0.08`, withdrawals `0.01` then `0.07`: the exact sum exceeds
the balance and each is at most the balance, yet both succeed. -/
theorem Withdraw_serialized_rounding :
    (0 : Float64) < f0_01 ∧ (0 : Float64) < f0_03 ∧
    f0_01.scaled + f0_03.scaled ≤ f0_04.scaled ∧
    (withdrawTwice store0_04 clock0 clock0 7 8 1 f0_01 f0_03).1.err = none ∧
    (withdrawTwice store0_04 clock0 clock0 7 8 1 f0_01 f0_03).2.err = none ∧
    (withdrawTwice store0_04 clock0 clock0 7 8 1 f0_03 f0_01).1.err = none ∧
    (withdrawTwice store0_04 clock0 clock0 7 8 1 f0_03 f0_01).2.err = none ∧
    storedBalance (withdrawTwice store0_04 clock0 clock0 7 8 1 f0_01 f0_03).2.db 1 =
      some (Float64.frombits 0) ∧
    storedBalance (withdrawTwice store0_04 clock0 clock0 7 8 1 f0_03 f0_01).2.db 1 =
      some (Float64.frombits 0x3C40000000000000) ∧
    (0 : Float64) < f0_07 ∧ f0_08.scaled < f0_01.scaled + f0_07.scaled ∧
    f0_01 ≤ f0_08 ∧ f0_07 ≤ f0_08 ∧
    (withdrawTwice store0_08 clock0 clock0 7 8 1 f0_01 f0_07).1.err = none ∧
    (withdrawTwice store0_08 clock0 clock0 7 8 1 f0_01 f0_07).2.err = none ∧
    storedBalance (withdrawTwice store0_08 clock0 clock0 7 8 1 f0_01 f0_07).2.db 1 =
      some (Float64.frombits 0) := by
  decide

/-- C10 as amended: two withdrawals of `amount1 > 0` and `amount2 > 0` against
a wallet with balance `B`, applied one after the other with no storage
failure. The first, if at most `B`, succeeds and stores the float64 difference
`B - amount1`; the second is checked against that stored difference: if it is
not below `amount2` the second succeeds, its record has `balance_before` equal
to the first record's `balance_after`, and the final balance is
`B - amount1 - amount2` as float64 computes it; otherwise it fails with
`ErrInsufficientFunds` and the final balance is `B - amount1`. When the
differences involved are exact: if `amount1 + amount2 ≤ B`, both succeed in
either order and the final balance has the value `B - amount1 - amount2`
whichever ran first; if `amount1 + amount2 > B` and each is `≤ B`, in either
order the one that ran first succeeds, the other fails with
`ErrInsufficientFunds`, and the final balance is `B` minus the amount that
succeeded. -/
theorem Withdraw_no_lost_update (db : Store) (c1 c2 : Clock) (id1 id2 userID : Int)
    (amount1 amount2 B : Float64) (w : Wallet) (hw : selectWallet db.wallets userID = some w)
    (hB : w.Balance = B) (h1 : 0 < amount1) (h2 : 0 < amount2) :
    (amount1 ≤ B →
      (withdrawTwice db c1 c2 id1 id2 userID amount1 amount2).1.err = none ∧
      (withdrawTwice db c1 c2 id1 id2 userID amount1 amount2).1.transaction =
        some ⟨id1, w.ID, amount1, "withdraw", B, B - amount1, c1.recordTime⟩ ∧
      (¬ (B - amount1 < amount2) →
        (withdrawTwice db c1 c2 id1 id2 userID amount1 amount2).2.err = none ∧
        (withdrawTwice db c1 c2 id1 id2 userID amount1 amount2).2.transaction =
          some ⟨id2, w.ID, amount2, "withdraw", B - amount1, B - amount1 - amount2,
            c2.recordTime⟩ ∧
        storedBalance (withdrawTwice db c1 c2 id1 id2 userID amount1 amount2).2.db userID =
          some (B - amount1 - amount2)) ∧
      (B - amount1 < amount2 →
        (withdrawTwice db c1 c2 id1 id2 userID amount1 amount2).2.err =
          some .ErrInsufficientFunds ∧
        storedBalance (withdrawTwice db c1 c2 id1 id2 userID amount1 amount2).2.db userID =
          some (B - amount1))) ∧
    (amount1.scaled + amount2.scaled ≤ B.scaled →
      Float64.Exact B amount1 → Float64.Exact B amount2 →
      Float64.Exact (B - amount1) amount2 → Float64.Exact (B - amount2) amount1 →
      (withdrawTwice db c1 c2 id1 id2 userID amount1 amount2).1.err = none ∧
      (withdrawTwice db c1 c2 id1 id2 userID amount1 amount2).2.err = none ∧
      (withdrawTwice db c1 c2 id1 id2 userID amount2 amount1).1.err = none ∧
      (withdrawTwice db c1 c2 id1 id2 userID amount2 amount1).2.err = none ∧
      storedBalance (withdrawTwice db c1 c2 id1 id2 userID amount1 amount2).2.db userID =
        some (B - amount1 - amount2) ∧
      storedBalance (withdrawTwice db c1 c2 id1 id2 userID amount2 amount1).2.db userID =
        some (B - amount2 - amount1) ∧
      (B - amount1 - amount2).scaled = B.scaled - amount1.scaled - amount2.scaled ∧
      (B - amount2 - amount1).scaled = B.scaled - amount1.scaled - amount2.scaled) ∧
    (B.scaled < amount1.scaled + amount2.scaled → amount1 ≤ B → amount2 ≤ B →
      Float64.Exact B amount1 → Float64.Exact B amount2 →
      (withdrawTwice db c1 c2 id1 id2 userID amount1 amount2).1.err = none ∧
      (withdrawTwice db c1 c2 id1 id2 userID amount1 amount2).2.err =
        some .ErrInsufficientFunds ∧
      storedBalance (withdrawTwice db c1 c2 id1 id2 userID amount1 amount2).2.db userID =
        some (B - amount1) ∧
      (withdrawTwice db c1 c2 id1 id2 userID amount2 amount1).1.err = none ∧
      (withdrawTwice db c1 c2 id1 id2 userID amount2 amount1).2.err =
        some .ErrInsufficientFunds ∧
      storedBalance (withdrawTwice db c1 c2 id1 id2 userID amount2 amount1).2.db userID =
        some (B - amount2)) := by
  refine ⟨?_, ?_, ?_⟩
  · intro hle
    obtain ⟨e1, e2, _⟩ := withdrawTwice_fst db c1 c2 id1 id2 userID amount1 amount2 B w hw hB
      h1 hle
    exact ⟨e1, e2,
      fun hok => withdrawTwice_snd_ok db c1 c2 id1 id2 userID amount1 amount2 B w hw hB h1 h2
        hle hok,
      fun hlt => withdrawTwice_snd_rejected db c1 c2 id1 id2 userID amount1 amount2 B w hw hB
        h1 h2 hle hlt⟩
  · intro hsum hx1 hx2 hx12 hx21
    have hle1 : amount1 ≤ B := le_of_exact_sum h1 h2 hsum hx1
    have hle2 : amount2 ≤ B := le_of_exact_sum h2 h1 (by omega) hx2
    have hok1 : ¬ (B - amount1 < amount2) := exact_second_ok hsum hx1
    have hok2 : ¬ (B - amount2 < amount1) := exact_second_ok (by omega) hx2
    obtain ⟨e1, _, _⟩ := withdrawTwice_fst db c1 c2 id1 id2 userID amount1 amount2 B w hw hB
      h1 hle1
    obtain ⟨g1, _, _⟩ := withdrawTwice_fst db c1 c2 id1 id2 userID amount2 amount1 B w hw hB
      h2 hle2
    obtain ⟨e2, _, e3⟩ := withdrawTwice_snd_ok db c1 c2 id1 id2 userID amount1 amount2 B w hw
      hB h1 h2 hle1 hok1
    obtain ⟨g2, _, g3⟩ := withdrawTwice_snd_ok db c1 c2 id1 id2 userID amount2 amount1 B w hw
      hB h2 h1 hle2 hok2
    refine ⟨e1, e2, g1, g2, e3, g3, ?_, ?_⟩
    · rw [hx12.2, hx1.2]
    · rw [hx21.2, hx2.2]; omega
  · intro hsum hle1 hle2 hx1 hx2
    obtain ⟨e1, _, _⟩ := withdrawTwice_fst db c1 c2 id1 id2 userID amount1 amount2 B w hw hB
      h1 hle1
    obtain ⟨g1, _, _⟩ := withdrawTwice_fst db c1 c2 id1 id2 userID amount2 amount1 B w hw hB
      h2 hle2
    obtain ⟨e2, e3⟩ := withdrawTwice_snd_rejected db c1 c2 id1 id2 userID amount1 amount2 B w
      hw hB h1 h2 hle1 (exact_second_rejected h2 hsum hx1)
    obtain ⟨g2, g3⟩ := withdrawTwice_snd_rejected db c1 c2 id1 id2 userID amount2 amount1 B w
      hw hB h2 h1 hle2 (exact_second_rejected h1 (by omega) hx2)
    exact ⟨e1, e2, e3, g1, g2, g3⟩

theorem Withdraw_no_lost_update_witness :
    selectWallet store100.wallets 1 = some ⟨1, 1, 100, 0, 0⟩ ∧
    (⟨1, 1, 100, 0, 0⟩ : Wallet).Balance = 100 ∧
    ((0 : Float64) < 30 ∧ (0 : Float64) < 50 ∧ (30 : Float64) ≤ 100 ∧
      ¬ ((100 : Float64) - (30 : Float64) < (50 : Float64)) ∧
      (30 : Float64).scaled + (50 : Float64).scaled ≤ (100 : Float64).scaled ∧
      Float64.Exact (100 : Float64) (30 : Float64) ∧ Float64.Exact (100 : Float64) (50 : Float64) ∧
      Float64.Exact ((100 : Float64) - (30 : Float64)) (50 : Float64) ∧
      Float64.Exact ((100 : Float64) - (50 : Float64)) (30 : Float64)) ∧
    ((withdrawTwice store100 clock0 clock0 7 8 1 (30 : Float64) (50 : Float64)).2.err = none ∧
      (withdrawTwice store100 clock0 clock0 7 8 1 (30 : Float64) (50 : Float64)).2.transaction =
        some ⟨8, (⟨1, 1, 100, 0, 0⟩ : Wallet).ID, (50 : Float64), "withdraw", (100 : Float64) - (30 : Float64),
          (100 : Float64) - (30 : Float64) - (50 : Float64), clock0.recordTime⟩ ∧
      storedBalance (withdrawTwice store100 clock0 clock0 7 8 1 (30 : Float64) (50 : Float64)).2.db 1 =
        some ((100 : Float64) - (30 : Float64) - (50 : Float64))) ∧
    ((withdrawTwice store100 clock0 clock0 7 8 1 (30 : Float64) (50 : Float64)).1.err = none ∧
      (withdrawTwice store100 clock0 clock0 7 8 1 (30 : Float64) (50 : Float64)).2.err = none ∧
      (withdrawTwice store100 clock0 clock0 7 8 1 (50 : Float64) (30 : Float64)).1.err = none ∧
      (withdrawTwice store100 clock0 clock0 7 8 1 (50 : Float64) (30 : Float64)).2.err = none ∧
      storedBalance (withdrawTwice store100 clock0 clock0 7 8 1 (30 : Float64) (50 : Float64)).2.db 1 =
        some ((100 : Float64) - (30 : Float64) - (50 : Float64)) ∧
      storedBalance (withdrawTwice store100 clock0 clock0 7 8 1 (50 : Float64) (30 : Float64)).2.db 1 =
        some ((100 : Float64) - (50 : Float64) - (30 : Float64)) ∧
      ((100 : Float64) - (30 : Float64) - (50 : Float64)).scaled =
        (100 : Float64).scaled - (30 : Float64).scaled - (50 : Float64).scaled ∧
      ((100 : Float64) - (50 : Float64) - (30 : Float64)).scaled =
        (100 : Float64).scaled - (30 : Float64).scaled - (50 : Float64).scaled) ∧
    ((0 : Float64) < 60 ∧ (0 : Float64) < 70 ∧
      (100 : Float64).scaled < (60 : Float64).scaled + (70 : Float64).scaled ∧
      (60 : Float64) ≤ 100 ∧ (70 : Float64) ≤ 100 ∧
      Float64.Exact (100 : Float64) (60 : Float64) ∧ Float64.Exact (100 : Float64) (70 : Float64)) ∧
    ((withdrawTwice store100 clock0 clock0 7 8 1 (60 : Float64) (70 : Float64)).1.err = none ∧
      (withdrawTwice store100 clock0 clock0 7 8 1 (60 : Float64) (70 : Float64)).2.err =
        some .ErrInsufficientFunds ∧
      storedBalance (withdrawTwice store100 clock0 clock0 7 8 1 (60 : Float64) (70 : Float64)).2.db 1 =
        some ((100 : Float64) - (60 : Float64)) ∧
      (withdrawTwice store100 clock0 clock0 7 8 1 (70 : Float64) (60 : Float64)).1.err = none ∧
      (withdrawTwice store100 clock0 clock0 7 8 1 (70 : Float64) (60 : Float64)).2.err =
        some .ErrInsufficientFunds ∧
      storedBalance (withdrawTwice store100 clock0 clock0 7 8 1 (70 : Float64) (60 : Float64)).2.db 1 =
        some ((100 : Float64) - (70 : Float64))) :=
  ⟨by decide, rfl, by decide,
    ((Withdraw_no_lost_update store100 clock0 clock0 7 8 1 30 50 100 ⟨1, 1, 100, 0, 0⟩
      (by decide) rfl (by decide) (by decide)).1 (by decide)).2.2.1 (by decide),
    (Withdraw_no_lost_update store100 clock0 clock0 7 8 1 30 50 100 ⟨1, 1, 100, 0, 0⟩
      (by decide) rfl (by decide) (by decide)).2.1 (by decide) (by decide) (by decide)
      (by decide) (by decide),
    by decide,
    (Withdraw_no_lost_update store100 clock0 clock0 7 8 1 60 70 100 ⟨1, 1, 100, 0, 0⟩
      (by decide) rfl (by decide) (by decide)).2.2 (by decide) (by decide) (by decide)
      (by decide) (by decide)⟩

end models

namespace models

/-! ## The user id in `Withdraw` -/

/-- C4: `Withdraw` has no check of the user id. It never returns
`ErrInvalidUserID`; with `userID = 0` and `amount = 100` it begins a unit of
work, issues the locking read and fails with `ErrWalletNotFound`; with
`userID = -1` and `amount = 0` it fails with `ErrInvalidAmount`. -/
theorem Withdraw_userID_unchecked :
    (∀ (db : Store) (f : Faults) (clock : Clock) (newID userID : Int) (amount : Float64),
      (Withdraw db f clock newID userID amount).err ≠ some .ErrInvalidUserID) ∧
    Withdraw store100 Faults.none clock0 7 0 100 =
      ⟨none, none, some .ErrWalletNotFound, store100,
        [.begin, .queryForUpdate 0, .rollback]⟩ ∧
    Withdraw store100 Faults.none clock0 7 (-1) 0 =
      ⟨none, none, some .ErrInvalidAmount, store100, []⟩ := by
  refine ⟨?_, by decide, by decide⟩
  intro db f clock newID userID amount
  by_cases ha : amount ≤ 0
  · rw [Withdraw_of_nonpos db f clock newID userID amount ha]; simp
  cases hb : f.beginErr with
  | some e => rw [Withdraw_of_begin_error db f clock newID userID amount e ha hb]; simp
  | none =>
    cases hq : f.queryErr with
    | some e => rw [Withdraw_of_query_error db f clock newID userID amount e ha hb hq]; simp
    | none =>
      cases hs : selectWallet db.wallets userID with
      | none => rw [Withdraw_of_no_rows db f clock newID userID amount ha hb hq hs]; simp
      | some w =>
        by_cases hlt : w.Balance < amount
        · rw [Withdraw_of_insufficient db f clock newID userID amount w ha hb hq hs hlt]; simp
        cases hx : f.execErr with
        | some e =>
          rw [Withdraw_of_exec_error db f clock newID userID amount w e ha hb hq hs hlt hx]
          simp
        | none =>
          cases hi : f.insertErr with
          | some e =>
            rw [Withdraw_of_insert_error db f clock newID userID amount w e ha hb hq hs hlt hx
              hi]
            simp
          | none =>
            cases hc : f.commitErr with
            | some e =>
              rw [Withdraw_of_commit_error db f clock newID userID amount w e ha hb hq hs hlt
                hx hi hc]
              simp
            | none =>
              rw [Withdraw_of_commit db f clock newID userID amount w ha hb hq hs hlt hx hi hc]
              simp

end models

namespace handlers

open models

/-! ## Status mapping of the handlers -/

theorem GetBalance_of_not_found (db : Option Store) (queryErr : Option DriverError)
    (userID : Int) (r : LookupResult) (h : GetWalletByUserID db queryErr userID = .returned r)
    (he : r.err = some .ErrWalletNotFound) :
    GetBalance db queryErr (some userID) = .returned ⟨404, .error ⟨"Wallet not found"⟩⟩ := by
  simp [GetBalance, h, he, errorsIs]

theorem GetBalance_of_other_error (db : Option Store) (queryErr : Option DriverError)
    (userID : Int) (r : LookupResult) (e : Error)
    (h : GetWalletByUserID db queryErr userID = .returned r) (he : r.err = some e)
    (hne : e ≠ .ErrWalletNotFound) :
    GetBalance db queryErr (some userID) =
      .returned ⟨500, .error ⟨"Internal server error"⟩⟩ := by
  cases e <;> simp_all [GetBalance, errorsIs]

theorem GetBalance_of_wallet (db : Option Store) (queryErr : Option DriverError)
    (userID : Int) (r : LookupResult) (w : Wallet)
    (h : GetWalletByUserID db queryErr userID = .returned r) (he : r.err = none)
    (hw : r.wallet = some w) :
    GetBalance db queryErr (some userID) = .returned ⟨200, .balance ⟨w.UserID, w.Balance⟩⟩ := by
  simp [GetBalance, h, he, hw]

theorem Withdraw_of_error (db : Store) (f : Faults) (clock : Clock) (newID userID : Int)
    (req : WithdrawRequest) (e : Error)
    (he : (models.Withdraw db f clock newID userID req.Amount).err = some e) :
    (Withdraw db f clock newID (some userID) (some req)).1 =
      match e with
      | .ErrWalletNotFound => .returned ⟨404, .error ⟨"Wallet not found"⟩⟩
      | .ErrInsufficientFunds => .returned ⟨400, .error ⟨"Insufficient funds"⟩⟩
      | .ErrInvalidAmount => .returned ⟨400, .error ⟨"Amount must be greater than 0"⟩⟩
      | _ => .returned ⟨500, .error ⟨"Internal server error"⟩⟩ := by
  cases e <;> simp [Withdraw, he, errorsIs]

theorem Withdraw_of_success (db : Store) (f : Faults) (clock : Clock) (newID userID : Int)
    (req : WithdrawRequest) (w : Wallet) (t : Transaction)
    (he : (models.Withdraw db f clock newID userID req.Amount).err = none)
    (hw : (models.Withdraw db f clock newID userID req.Amount).wallet = some w)
    (ht : (models.Withdraw db f clock newID userID req.Amount).transaction = some t) :
    (Withdraw db f clock newID (some userID) (some req)).1 =
      .returned ⟨200, .withdraw ⟨w.UserID, req.Amount, t.BalanceBefore, w.Balance, t.ID⟩⟩ := by
  simp [Withdraw, he, hw, ht]

/-- C7: the balance handler does not answer 400 for a user id that parses to
an integer `≤ 0`: `GetWalletByUserID` returns `ErrInvalidUserID`, which the
handler sends to its 500 branch. At the path ids "0" and "-1" the answer is
500 "Internal server error" on any store, nil handle included. -/
theorem GetBalance_invalid_userID_is_500 :
    GetBalance (some store100) none (some 0) =
      .returned ⟨500, .error ⟨"Internal server error"⟩⟩ ∧
    GetBalance (some store100) none (some (-1)) =
      .returned ⟨500, .error ⟨"Internal server error"⟩⟩ ∧
    (∀ (db : Option Store) (queryErr : Option DriverError),
      GetBalance db queryErr (some 0) =
        .returned ⟨500, .error ⟨"Internal server error"⟩⟩) := by
  refine ⟨by decide, by decide, ?_⟩
  intro db queryErr
  simp [GetBalance, GetWalletByUserID, errorsIs]

end handlers
